import Mathlib
/-!
Verification of the kernel execution protocol bridge
(`pkg/korokd/handlers/ipykernel_helper.py`).

The helper drives a Jupyter kernel over two channels: the iopub
(broadcast) channel delivering execution events and the shell (reply)
channel delivering command acknowledgements.  We embed the three
operations `probe`, `execute` and `shutdown` as pure Lean functions.

Time is modelled by an integer-valued monotonic clock counting
milliseconds.  The source computes in seconds
(`timeout_seconds = timeout_ms / 1000.0`, readiness bounds `5.0` and
`3.0` seconds); every second-valued quantity appears here multiplied by
1000, which is exact, so all comparisons and the deadline arithmetic are
unchanged.  Each channel is
a list of messages tagged with an absolute arrival time; the blocking
receive-with-timeout primitive (`client.get_iopub_msg(timeout=rem)` /
`client.get_shell_msg(timeout=rem)`) delivers the next queued message if
it arrives within the wait window and otherwise raises `Empty` after the
window elapses.  External collaborator behaviour (whether
`wait_for_ready`, `interrupt_kernel`, `shutdown` or `stop_channels`
succeed or raise) is supplied as explicit parameters of the environment.
-/
set_option linter.unusedVariables false
instance {ε α : Type} [DecidableEq ε] [DecidableEq α] : DecidableEq (Except ε α) := fun a b =>
  match a, b with
  | .error e, .error f =>
    if h : e = f then .isTrue (by rw [h]) else .isFalse (by simp [h])
  | .error _, .ok _ => .isFalse (by simp)
  | .ok _, .error _ => .isFalse (by simp)
  | .ok x, .ok y =>
    if h : x = y then .isTrue (by rw [h]) else .isFalse (by simp [h])
namespace IpykernelHelper

/-- An iopub (broadcast) message, restricted to the fields the helper
reads: `parent_header["msg_id"]`, `msg_type`, and the `content` keys
`name`, `text`, `traceback`, `evalue`, `execution_count`,
`execution_state`.  A `dict.get` with no default is an `Option`; the
`or []` on the traceback makes a missing and an empty list coincide. -/
structure IopubMsg where
  parentMsgId : Option String
  msgType : String
  streamName : Option String
  text : Option String
  traceback : List String
  evalue : Option String
  executionCount : Option Int
  executionState : Option String
  deriving DecidableEq, Repr

/-- A shell (reply) message, restricted to the fields the helper reads. -/
structure ShellMsg where
  parentMsgId : Option String
  status : Option String
  executionCount : Option Int
  traceback : List String
  evalue : Option String
  deriving DecidableEq, Repr

/-- A message together with its absolute arrival time on the channel. -/
structure TimedMsg (α : Type) where
  arrival : ℤ
  msg : α
  deriving DecidableEq, Repr

/-- Mutable state of `execute`'s consumption loops: the monotonic clock
and the accumulators `stdout_chunks`, `stderr_chunks`,
`execution_count`, `status`. -/
structure IoState where
  clock : ℤ
  stdoutChunks : List String
  stderrChunks : List String
  executionCount : Int
  status : String
  deriving DecidableEq, Repr

/-- Function `remaining()` from the source: `max(0.0, deadline - time.monotonic())`. -/
def remaining (deadline clock : ℤ) : ℤ :=
  max 0 (deadline - clock)

/-- The chunk appended to `stderr_chunks` by an `error` iopub event:
`"\n".join(tb) + "\n"` if the traceback is nonempty, else the error
value followed by a newline if it is truthy, else nothing. -/
def errChunks (traceback : List String) (evalue : Option String) : List String :=
  if traceback ≠ [] then [String.intercalate "\n" traceback ++ "\n"]
  else if evalue.getD "" ≠ "" then [evalue.getD "" ++ "\n"]
  else []

/-- The iopub event-consumption loop of `execute` (source lines 61-92).
Each iteration checks the remaining time, performs a bounded receive,
discards messages whose parent id differs from the command's `msg_id`,
and dispatches on `msg_type`; a matching `status`/`idle` event breaks
the loop. -/
def iopubLoop (msgId : String) (deadline : ℤ) :
    List (TimedMsg IopubMsg) → IoState → IoState
  | [], s =>
    let rem := remaining deadline s.clock
    if rem ≤ 0 then { s with status := "timeout" }
    else { s with status := "timeout", clock := s.clock + rem }
  | tm :: rest, s =>
    let rem := remaining deadline s.clock
    if rem ≤ 0 then { s with status := "timeout" }
    else if tm.arrival ≤ s.clock + rem then
      let s' := { s with clock := max s.clock tm.arrival }
      let m := tm.msg
      if m.parentMsgId ≠ some msgId then iopubLoop msgId deadline rest s'
      else if m.msgType = "stream" then
        if m.streamName = some "stderr" then
          iopubLoop msgId deadline rest
            { s' with stderrChunks := s'.stderrChunks ++ [m.text.getD ""] }
        else
          iopubLoop msgId deadline rest
            { s' with stdoutChunks := s'.stdoutChunks ++ [m.text.getD ""] }
      else if m.msgType = "error" then
        iopubLoop msgId deadline rest
          { s' with stderrChunks := s'.stderrChunks ++ errChunks m.traceback m.evalue }
      else if m.msgType = "execute_input" then
        iopubLoop msgId deadline rest
          { s' with executionCount := m.executionCount.getD s'.executionCount }
      else if m.msgType = "status" ∧ m.executionState = some "idle" then s'
      else iopubLoop msgId deadline rest s'
    else { s with status := "timeout", clock := s.clock + rem }

/-- The shell acknowledgement-consumption loop of `execute` (source
lines 94-117).  Runs only while `status != "timeout"`; discards replies
whose parent id differs; a matching reply sets `shell_status` and the
execution count, folds an error traceback into stderr, and breaks.
Returns the state together with `shell_status`. -/
def shellLoop (msgId : String) (deadline : ℤ) :
    List (TimedMsg ShellMsg) → IoState → String → IoState × String
  | [], s, shellStatus =>
    if s.status = "timeout" then (s, shellStatus)
    else
      let rem := remaining deadline s.clock
      if rem ≤ 0 then ({ s with status := "timeout" }, shellStatus)
      else ({ s with status := "timeout", clock := s.clock + rem }, shellStatus)
  | tm :: rest, s, shellStatus =>
    if s.status = "timeout" then (s, shellStatus)
    else
      let rem := remaining deadline s.clock
      if rem ≤ 0 then ({ s with status := "timeout" }, shellStatus)
      else if tm.arrival ≤ s.clock + rem then
        let s' := { s with clock := max s.clock tm.arrival }
        let m := tm.msg
        if m.parentMsgId ≠ some msgId then shellLoop msgId deadline rest s' shellStatus
        else
          let st := m.status.getD "ok"
          let s'' := { s' with executionCount := m.executionCount.getD s'.executionCount }
          if st = "error" then
            ({ s'' with stderrChunks := s''.stderrChunks ++ errChunks m.traceback m.evalue }, st)
          else (s'', st)
      else ({ s with status := "timeout", clock := s.clock + rem }, shellStatus)

/-- The JSON record emitted by `execute`. -/
structure ExecResult where
  status : String
  execution_count : Int
  stdout : String
  stderr : String
  deriving DecidableEq, Repr

/-- Environment of one `execute` call: the `--timeout-ms` argument, the
monotonic time `t0` when the deadline is computed (source line 39),
the outcome of `wait_for_ready` (`some d`: the client becomes ready and
the request is sent `d` milliseconds after `t0`; `none`:
`wait_for_ready` raises), the two message
channels, and whether the cleanup calls raise. -/
structure ExecEnv where
  timeoutMs : Int
  t0 : ℤ
  readyOutcome : Option ℤ
  iopub : List (TimedMsg IopubMsg)
  shell : List (TimedMsg ShellMsg)
  interruptRaises : Bool
  stopRaises : Bool
  deriving DecidableEq, Repr

/-- Observable outcome of one `execute` call: the emitted record (or a
propagated exception), together with the computed absolute deadline, the
send time of the execute request, and which cleanup calls were made. -/
structure ExecOutcome where
  result : Except String ExecResult
  deadline : ℤ
  sendTime : Option ℤ
  readyBound : ℤ
  interruptAttempted : Bool
  stopAttempted : Bool
  deriving DecidableEq, Repr

/-- Deadline computation `deadline = time.monotonic() + timeout_seconds` (source line 39),
computed before the channels are started; in milliseconds this is
`t0 + timeout_ms`. -/
def execDeadline (env : ExecEnv) : ℤ :=
  env.t0 + env.timeoutMs

/-- The message appended to stderr on timeout:
`f"Execution timed out after {args.timeout_ms} ms.\n"`. -/
def timeoutNotice (timeoutMs : Int) : String :=
  "Execution timed out after " ++ toString timeoutMs ++ " ms.\n"

/-- Loop state at the moment the execute request has been sent, `d`
milliseconds of readiness wait after `t0`: empty accumulators, execution
count `0`, status `"ok"`. -/
def execInit (env : ExecEnv) (d : ℤ) : IoState :=
  { clock := env.t0 + d
    stdoutChunks := []
    stderrChunks := []
    executionCount := 0
    status := "ok" }

/-- The state after both consumption loops, paired with `shell_status`. -/
def execStates (env : ExecEnv) (msgId : String) (d : ℤ) : IoState × String :=
  shellLoop msgId (execDeadline env) env.shell
    (iopubLoop msgId (execDeadline env) env.iopub (execInit env d)) "ok"

/-- The whole `execute` operation.  If `wait_for_ready` raises, the
exception propagates (it is not caught in the source) but the `finally`
block still stops the channels.  Otherwise the loops run; on timeout an
interrupt is attempted (its failure swallowed) and the notice is
appended to stderr, else the status becomes `shell_status`. -/
def executeModel (env : ExecEnv) (msgId : String) : ExecOutcome :=
  match env.readyOutcome with
  | none =>
    { result := .error "wait_for_ready raised"
      deadline := execDeadline env
      sendTime := none
      readyBound := min 5000 env.timeoutMs
      interruptAttempted := false
      stopAttempted := true }
  | some d =>
    let p := execStates env msgId d
    let s := p.1
    if s.status = "timeout" then
      { result := .ok
          { status := "timeout"
            execution_count := s.executionCount
            stdout := String.join s.stdoutChunks
            stderr := String.join (s.stderrChunks ++ [timeoutNotice env.timeoutMs]) }
        deadline := execDeadline env
        sendTime := some (env.t0 + d)
        readyBound := min 5000 env.timeoutMs
        interruptAttempted := true
        stopAttempted := true }
    else
      { result := .ok
          { status := p.2
            execution_count := s.executionCount
            stdout := String.join s.stdoutChunks
            stderr := String.join s.stderrChunks }
        deadline := execDeadline env
        sendTime := some (env.t0 + d)
        readyBound := min 5000 env.timeoutMs
        interruptAttempted := false
        stopAttempted := true }

/-- Observable outcome of a `probe` or `shutdown` call. -/
structure SimpleOutcome where
  result : Except String Bool
  readyBound : ℤ
  shutdownSent : Bool
  ackWaited : Bool
  stopAttempted : Bool
  deriving DecidableEq, Repr

/-- The `probe` operation: start channels, `wait_for_ready` with the
full `timeout_ms / 1000.0`-second (i.e. `timeout_ms`-millisecond) bound, emit `{"ok": true}`; a readiness
failure propagates; `stop_channels` runs in `finally` with its failure
swallowed. -/
def probeModel (timeoutMs : Int) (ready : Bool) (stopRaises : Bool) : SimpleOutcome :=
  { result := if ready then .ok true else .error "wait_for_ready raised"
    readyBound := (timeoutMs : ℤ)
    shutdownSent := false
    ackWaited := false
    stopAttempted := true }

/-- The `shutdown` operation: start channels, best-effort
`wait_for_ready` bounded by `min(3.0, timeout_ms / 1000.0)` seconds (`min(3000, timeout_ms)` ms) with any
failure swallowed, best-effort `shutdown(restart=False)` with any
failure swallowed, emit `{"ok": true}`; no reply is awaited;
`stop_channels` runs in `finally` with its failure swallowed. -/
def shutdownModel (timeoutMs : Int) (ready : Bool) (sendOk : Bool)
    (stopRaises : Bool) : SimpleOutcome :=
  { result := .ok true
    readyBound := min 3000 timeoutMs
    shutdownSent := true
    ackWaited := false
    stopAttempted := true }

/-- The texts a single consumed iopub message contributes to the
standard-output accumulator: the payload text when it is a stream event
matching the command whose stream name is not the stderr marker. -/
def outContrib (msgId : String) (m : IopubMsg) : List String :=
  if m.parentMsgId = some msgId ∧ m.msgType = "stream" ∧ m.streamName ≠ some "stderr"
  then [m.text.getD ""] else []

/-- The texts a single consumed iopub message contributes to the
standard-error accumulator: the payload text of a matching stream event
named `stderr`, or the formatted traceback of a matching error event. -/
def errContrib (msgId : String) (m : IopubMsg) : List String :=
  if m.parentMsgId = some msgId then
    if m.msgType = "stream" then
      if m.streamName = some "stderr" then [m.text.getD ""] else []
    else if m.msgType = "error" then errChunks m.traceback m.evalue
    else []
  else []

/-- Concatenation, in list order, of per-message contributions. -/
def contribJoin (f : IopubMsg → List String) : List IopubMsg → List String
  | [] => []
  | m :: ms => f m ++ contribJoin f ms

/-- The sequence of iopub messages the event loop actually receives,
in receipt order: delivery follows the same deadline-bounded receive as
`iopubLoop` and stops at a matching idle status event.  The control
flow of the loop depends only on the clock and the message fields,
never on the accumulators, so the consumed prefix is a function of the
starting clock alone. -/
def consumedIopub (msgId : String) (deadline : ℤ) :
    List (TimedMsg IopubMsg) → ℤ → List IopubMsg
  | [], _ => []
  | tm :: rest, clock =>
    let rem := remaining deadline clock
    if rem ≤ 0 then []
    else if tm.arrival ≤ clock + rem then
      let m := tm.msg
      if m.parentMsgId ≠ some msgId then
        m :: consumedIopub msgId deadline rest (max clock tm.arrival)
      else if m.msgType = "stream" then
        m :: consumedIopub msgId deadline rest (max clock tm.arrival)
      else if m.msgType = "error" then
        m :: consumedIopub msgId deadline rest (max clock tm.arrival)
      else if m.msgType = "execute_input" then
        m :: consumedIopub msgId deadline rest (max clock tm.arrival)
      else if m.msgType = "status" ∧ m.executionState = some "idle" then [m]
      else m :: consumedIopub msgId deadline rest (max clock tm.arrival)
    else []

/-- A `stream` iopub event matching the command, built from its stream
name and text payload. -/
def streamEvent (pid : Option String) (name text : String) : IopubMsg :=
  { parentMsgId := pid, msgType := "stream", streamName := some name,
    text := some text, traceback := [], evalue := none,
    executionCount := none, executionState := none }

/-- A `status` iopub event with execution state `idle`. -/
def idleEvent (pid : Option String) : IopubMsg :=
  { parentMsgId := pid, msgType := "status", streamName := none,
    text := none, traceback := [], evalue := none,
    executionCount := none, executionState := some "idle" }

/-- An execute-reply acknowledgement on the shell channel. -/
def ackReply (pid : Option String) (st : String) (ec : Int) : ShellMsg :=
  { parentMsgId := pid, status := some st, executionCount := some ec,
    traceback := [], evalue := none }

/-- Scenario of C3: command `X`, stream(stdout,"5\n") then status(idle)
on iopub, ack(ok, 3) on shell, 30000 ms timeout. -/
def envScenarioOk : ExecEnv :=
  { timeoutMs := 30000, t0 := 0, readyOutcome := some 0,
    iopub := [⟨1000, streamEvent (some "X") "stdout" "5\n"⟩,
              ⟨2000, idleEvent (some "X")⟩],
    shell := [⟨3000, ackReply (some "X") "ok" 3⟩],
    interruptRaises := false, stopRaises := false }

/-- Run in which the only stream event is named "stderr" with text
"boom": under the claimed routing it would be accumulated into stdout;
the code accumulates it into stderr. -/
def envStderrStream : ExecEnv :=
  { timeoutMs := 10000, t0 := 0, readyOutcome := some 0,
    iopub := [⟨1000, streamEvent (some "X") "stderr" "boom"⟩,
              ⟨2000, idleEvent (some "X")⟩],
    shell := [⟨2500, ackReply (some "X") "ok" 1⟩],
    interruptRaises := false, stopRaises := false }

/-- Run with a 10000 ms timeout in which the readiness wait takes
1000 ms before the execute request is sent. -/
def envSlowReady : ExecEnv :=
  { timeoutMs := 10000, t0 := 0, readyOutcome := some 1000,
    iopub := [], shell := [],
    interruptRaises := false, stopRaises := false }

/-- Run with a 1000 ms timeout in which no broadcast message ever
arrives: the deadline elapses in the event-consumption loop. -/
def envNoMessages : ExecEnv :=
  { timeoutMs := 1000, t0 := 0, readyOutcome := some 0,
    iopub := [], shell := [],
    interruptRaises := false, stopRaises := false }

/-- Run with timeout 0 ms against a kernel that never becomes ready:
`wait_for_ready` raises and `execute` propagates the exception. -/
def envDeadKernelZeroTimeout : ExecEnv :=
  { timeoutMs := 0, t0 := 0, readyOutcome := none,
    iopub := [], shell := [],
    interruptRaises := false, stopRaises := false }

lemma remaining_of_lt {deadline clock : ℤ} (h : clock < deadline) :
    remaining deadline clock = deadline - clock :=
  max_eq_right (by omega)

lemma remaining_not_le {deadline clock : ℤ} (h : clock < deadline) :
    ¬ remaining deadline clock ≤ 0 := by
  rw [remaining_of_lt h]; omega

lemma arrival_le_window {deadline clock a : ℤ} (h : clock < deadline)
    (h2 : a ≤ deadline) : a ≤ clock + remaining deadline clock := by
  rw [remaining_of_lt h]; omega

lemma foldl_append_shift (l : List String) : ∀ a b : String,
    List.foldl (fun r s => r ++ s) (a ++ b) l = a ++ List.foldl (fun r s => r ++ s) b l := by
  induction l with
  | nil => intro a b; rfl
  | cons h t ih =>
    intro a b
    simp only [List.foldl_cons]
    rw [String.append_assoc, ih]

lemma join_append (a b : List String) :
    String.join (a ++ b) = String.join a ++ String.join b := by
  simp only [String.join, List.foldl_append]
  have := foldl_append_shift b (String.join a) ""
  simp only [String.join] at this
  rw [← this, String.append_empty]

lemma join_concat (a : List String) (x : String) :
    String.join (a ++ [x]) = String.join a ++ x := by
  rw [join_append]; simp [String.join]

/-- A received broadcast message whose parent id differs from the
command id is discarded: the loop continues on the remaining queue with
only the clock advanced. -/
lemma iopubLoop_cons_unmatched (msgId : String) (deadline : ℤ)
    (tm : TimedMsg IopubMsg) (rest : List (TimedMsg IopubMsg)) (s : IoState)
    (h1 : s.clock < deadline) (h2 : tm.arrival ≤ deadline)
    (hm : tm.msg.parentMsgId ≠ some msgId) :
    iopubLoop msgId deadline (tm :: rest) s =
      iopubLoop msgId deadline rest { s with clock := max s.clock tm.arrival } := by
  simp only [iopubLoop]
  rw [if_neg (remaining_not_le h1), if_pos (arrival_le_window h1 h2), if_pos hm]

/-- A received matching stream event appends its text to the stderr
accumulator when its name is `stderr`, and to the stdout accumulator
otherwise, then the loop continues. -/
lemma iopubLoop_cons_stream (msgId : String) (deadline : ℤ)
    (tm : TimedMsg IopubMsg) (rest : List (TimedMsg IopubMsg)) (s : IoState)
    (h1 : s.clock < deadline) (h2 : tm.arrival ≤ deadline)
    (hm : tm.msg.parentMsgId = some msgId) (ht : tm.msg.msgType = "stream") :
    iopubLoop msgId deadline (tm :: rest) s =
      if tm.msg.streamName = some "stderr" then
        iopubLoop msgId deadline rest
          { s with clock := max s.clock tm.arrival,
                   stderrChunks := s.stderrChunks ++ [tm.msg.text.getD ""] }
      else
        iopubLoop msgId deadline rest
          { s with clock := max s.clock tm.arrival,
                   stdoutChunks := s.stdoutChunks ++ [tm.msg.text.getD ""] } := by
  simp only [iopubLoop]
  rw [if_neg (remaining_not_le h1), if_pos (arrival_le_window h1 h2),
    if_neg (by simp [hm]), if_pos ht]

/-- A received matching `status`/`idle` event terminates the event loop
with the accumulators unchanged. -/
lemma iopubLoop_cons_idle (msgId : String) (deadline : ℤ)
    (tm : TimedMsg IopubMsg) (rest : List (TimedMsg IopubMsg)) (s : IoState)
    (h1 : s.clock < deadline) (h2 : tm.arrival ≤ deadline)
    (hm : tm.msg.parentMsgId = some msgId) (ht : tm.msg.msgType = "status")
    (hs : tm.msg.executionState = some "idle") :
    iopubLoop msgId deadline (tm :: rest) s =
      { s with clock := max s.clock tm.arrival } := by
  simp only [iopubLoop]
  rw [if_neg (remaining_not_le h1), if_pos (arrival_le_window h1 h2),
    if_neg (by simp [hm]), if_neg (by rw [ht]; decide),
    if_neg (by rw [ht]; decide), if_neg (by rw [ht]; decide), if_pos ⟨ht, hs⟩]

/-- A received shell reply whose parent id differs from the command id
is discarded: the loop continues on the remaining queue with only the
clock advanced. -/
lemma shellLoop_cons_unmatched (msgId : String) (deadline : ℤ)
    (tm : TimedMsg ShellMsg) (rest : List (TimedMsg ShellMsg)) (s : IoState)
    (ss : String) (h0 : s.status ≠ "timeout")
    (h1 : s.clock < deadline) (h2 : tm.arrival ≤ deadline)
    (hm : tm.msg.parentMsgId ≠ some msgId) :
    shellLoop msgId deadline (tm :: rest) s ss =
      shellLoop msgId deadline rest { s with clock := max s.clock tm.arrival } ss := by
  simp only [shellLoop]
  rw [if_neg h0, if_neg (remaining_not_le h1), if_pos (arrival_le_window h1 h2), if_pos hm]

lemma outContrib_unmatched {msgId : String} {m : IopubMsg}
    (hpm : m.parentMsgId ≠ some msgId) : outContrib msgId m = [] := by
  simp [outContrib, hpm]

lemma errContrib_unmatched {msgId : String} {m : IopubMsg}
    (hpm : m.parentMsgId ≠ some msgId) : errContrib msgId m = [] := by
  simp [errContrib, hpm]

lemma iopubLoop_chunks (msgId : String) (deadline : ℤ) :
    ∀ (q : List (TimedMsg IopubMsg)) (s : IoState),
      (iopubLoop msgId deadline q s).stdoutChunks
        = s.stdoutChunks ++ contribJoin (outContrib msgId) (consumedIopub msgId deadline q s.clock)
      ∧ (iopubLoop msgId deadline q s).stderrChunks
        = s.stderrChunks ++ contribJoin (errContrib msgId) (consumedIopub msgId deadline q s.clock) := by
  intro q
  induction q with
  | nil =>
    intro s
    simp only [iopubLoop, consumedIopub, contribJoin]
    split <;> simp
  | cons tm rest ih =>
    intro s
    simp only [iopubLoop, consumedIopub]
    by_cases hrem : remaining deadline s.clock ≤ 0
    · simp [hrem, contribJoin]
    · simp only [if_neg hrem]
      by_cases harr : tm.arrival ≤ s.clock + remaining deadline s.clock
      · simp only [if_pos harr]
        by_cases hpm : tm.msg.parentMsgId ≠ some msgId
        · simp only [if_pos hpm]
          have h1 := ih { s with clock := max s.clock tm.arrival }
          simp only [contribJoin, outContrib_unmatched hpm, errContrib_unmatched hpm,
            List.nil_append]
          exact ⟨h1.1, h1.2⟩
        · simp only [if_neg hpm]
          rw [not_not] at hpm
          by_cases hstream : tm.msg.msgType = "stream"
          · simp only [if_pos hstream]
            by_cases hname : tm.msg.streamName = some "stderr"
            · simp only [if_pos hname]
              have h1 := ih { s with clock := max s.clock tm.arrival,
                                     stderrChunks := s.stderrChunks ++ [tm.msg.text.getD ""] }
              simp only [contribJoin] at *
              have hout : outContrib msgId tm.msg = [] := by
                simp [outContrib, hname]
              have herr : errContrib msgId tm.msg = [tm.msg.text.getD ""] := by
                simp [errContrib, hpm, hstream, hname]
              rw [h1.1, h1.2]
              simp [hout, herr]
            · simp only [if_neg hname]
              have h1 := ih { s with clock := max s.clock tm.arrival,
                                     stdoutChunks := s.stdoutChunks ++ [tm.msg.text.getD ""] }
              simp only [contribJoin] at *
              have hout : outContrib msgId tm.msg = [tm.msg.text.getD ""] := by
                simp [outContrib, hpm, hstream, hname]
              have herr : errContrib msgId tm.msg = [] := by
                simp [errContrib, hpm, hstream, hname]
              rw [h1.1, h1.2]
              simp [hout, herr]
          · simp only [if_neg hstream]
            by_cases herror : tm.msg.msgType = "error"
            · simp only [if_pos herror]
              have h1 := ih { s with clock := max s.clock tm.arrival,
                                     stderrChunks := s.stderrChunks ++ errChunks tm.msg.traceback tm.msg.evalue }
              simp only [contribJoin] at *
              have hout : outContrib msgId tm.msg = [] := by
                simp [outContrib, hstream]
              have herr : errContrib msgId tm.msg = errChunks tm.msg.traceback tm.msg.evalue := by
                simp [errContrib, hpm, hstream, herror]
              rw [h1.1, h1.2]
              simp [hout, herr]
            · simp only [if_neg herror]
              by_cases hinput : tm.msg.msgType = "execute_input"
              · simp only [if_pos hinput]
                have h1 := ih { s with clock := max s.clock tm.arrival,
                                       executionCount := tm.msg.executionCount.getD s.executionCount }
                simp only [contribJoin] at *
                have hout : outContrib msgId tm.msg = [] := by
                  simp [outContrib, hstream]
                have herr : errContrib msgId tm.msg = [] := by
                  simp [errContrib, hstream, herror]
                rw [h1.1, h1.2]
                simp [hout, herr]
              · simp only [if_neg hinput]
                by_cases hidle : tm.msg.msgType = "status" ∧ tm.msg.executionState = some "idle"
                · simp only [if_pos hidle]
                  have hout : outContrib msgId tm.msg = [] := by
                    simp [outContrib, hstream]
                  have herr : errContrib msgId tm.msg = [] := by
                    simp [errContrib, hstream, herror]
                  simp [contribJoin, hout, herr]
                · simp only [if_neg hidle]
                  have h1 := ih { s with clock := max s.clock tm.arrival }
                  simp only [contribJoin] at *
                  have hout : outContrib msgId tm.msg = [] := by
                    simp [outContrib, hstream]
                  have herr : errContrib msgId tm.msg = [] := by
                    simp [errContrib, hstream, herror]
                  rw [h1.1, h1.2]
                  simp [hout, herr]
      · simp [if_neg harr, contribJoin]

lemma shellLoop_of_timeout (msgId : String) (deadline : ℤ)
    (q : List (TimedMsg ShellMsg)) (s : IoState) (ss : String)
    (h : s.status = "timeout") :
    shellLoop msgId deadline q s ss = (s, ss) := by
  cases q <;> simp [shellLoop, h]

lemma shellLoop_effects (msgId : String) (deadline : ℤ) :
    ∀ (q : List (TimedMsg ShellMsg)) (s : IoState) (ss : String),
      (shellLoop msgId deadline q s ss).1.stdoutChunks = s.stdoutChunks
      ∧ ∃ extra, (shellLoop msgId deadline q s ss).1.stderrChunks = s.stderrChunks ++ extra := by
  intro q
  induction q with
  | nil =>
    intro s ss
    simp only [shellLoop]
    constructor
    · split <;> [skip; split] <;> rfl
    · exact ⟨[], by split <;> [skip; split] <;> simp⟩
  | cons tm rest ih =>
    intro s ss
    simp only [shellLoop]
    by_cases h0 : s.status = "timeout"
    · simp [h0]
    · simp only [if_neg h0]
      by_cases hrem : remaining deadline s.clock ≤ 0
      · simp [hrem]
      · simp only [if_neg hrem]
        by_cases harr : tm.arrival ≤ s.clock + remaining deadline s.clock
        · simp only [if_pos harr]
          by_cases hpm : tm.msg.parentMsgId ≠ some msgId
          · simp only [if_pos hpm]
            exact ih _ _
          · simp only [if_neg hpm]
            by_cases herr : tm.msg.status.getD "ok" = "error"
            · simp only [if_pos herr]
              exact ⟨by simp, ⟨errChunks tm.msg.traceback tm.msg.evalue, by simp⟩⟩
            · simp only [if_neg herr]
              exact ⟨by simp, ⟨[], by simp⟩⟩
        · simp [if_neg harr]

lemma iopubLoop_elapsed (msgId : String) (deadline : ℤ)
    (q : List (TimedMsg IopubMsg)) (s : IoState)
    (h : remaining deadline s.clock ≤ 0) :
    iopubLoop msgId deadline q s = { s with status := "timeout" } := by
  cases q <;> simp [iopubLoop, h]

lemma executeModel_ignores_cleanup_flags (env : ExecEnv) (msgId : String) (a b : Bool) :
    executeModel { env with interruptRaises := a, stopRaises := b } msgId
      = executeModel env msgId := by
  cases env; rfl

/-- C3: for the trace where the command with correlation id X is sent,
the broadcast channel delivers a stream event (name stdout, text "5\n")
then a status(idle) event, both tagged X, and the reply channel
delivers an acknowledgement tagged X with terminal status ok and
execution count 3, Execute returns exactly
`{status: "ok", execution_count: 3, stdout: "5\n", stderr: ""}`. -/
theorem execute_scenario_ok :
    (executeModel envScenarioOk "X").result =
      .ok { status := "ok", execution_count := 3, stdout := "5\n", stderr := "" } := by
  decide

/-- C1 counterexample: on a run whose only matching stream event has
stream name "stderr" and text "boom", the result has stdout = "" and
stderr = "boom" — the text was appended to the standard-error
accumulator, not to the standard-output accumulator as the claim
states. -/
theorem stream_routing_counterexample :
    (executeModel envStderrStream "X").result =
      .ok { status := "ok", execution_count := 1, stdout := "", stderr := "boom" }
    ∧ (executeModel envStderrStream "X").result ≠
      .ok { status := "ok", execution_count := 1, stdout := "boom", stderr := "" } := by
  decide

/-- C1 (amended): in Execute's event-consumption loop, for every
matching broadcast event of kind stream-output received before the
deadline, the payload text is appended to the standard-ERROR
accumulator if the event's stream-name field is "stderr", and to the
standard-OUTPUT accumulator otherwise; routing is solely by the
explicit stream-name field, with non-error-stream names defaulting to
stdout. -/
theorem stream_routing_by_name (msgId : String) (deadline : ℤ)
    (tm : TimedMsg IopubMsg) (rest : List (TimedMsg IopubMsg)) (s : IoState)
    (h1 : s.clock < deadline) (h2 : tm.arrival ≤ deadline)
    (hm : tm.msg.parentMsgId = some msgId) (ht : tm.msg.msgType = "stream") :
    iopubLoop msgId deadline (tm :: rest) s =
      if tm.msg.streamName = some "stderr" then
        iopubLoop msgId deadline rest
          { s with clock := max s.clock tm.arrival,
                   stderrChunks := s.stderrChunks ++ [tm.msg.text.getD ""] }
      else
        iopubLoop msgId deadline rest
          { s with clock := max s.clock tm.arrival,
                   stdoutChunks := s.stdoutChunks ++ [tm.msg.text.getD ""] } :=
  iopubLoop_cons_stream msgId deadline tm rest s h1 h2 hm ht

/-- Witness for C1 (amended) at a concrete input: a matching
stderr-named stream event is appended to the stderr accumulator. -/
theorem stream_routing_by_name_witness :
    iopubLoop "X" 10000 [⟨1000, streamEvent (some "X") "stderr" "boom"⟩]
        { clock := 0, stdoutChunks := [], stderrChunks := [],
          executionCount := 0, status := "ok" }
      = iopubLoop "X" 10000 []
        { clock := 1000, stdoutChunks := [], stderrChunks := ["boom"],
          executionCount := 0, status := "ok" } := by
  rw [stream_routing_by_name "X" 10000 ⟨1000, streamEvent (some "X") "stderr" "boom"⟩ []
    { clock := 0, stdoutChunks := [], stderrChunks := [],
      executionCount := 0, status := "ok" }
    (by decide) (by decide) (by decide) (by decide)]
  decide

/-- C2 counterexample: with `t0 = 0`, timeout 10000 ms and a readiness
wait of 1000 ms, the request is sent at time 1000 but the absolute
deadline is 10000, not send-time + timeout = 11000; the remaining
budget at send time is 9000 ms, so the readiness wait DOES reduce the
budget available to the consumption loops. -/
theorem deadline_recorded_before_ready_counterexample :
    (executeModel envSlowReady "X").sendTime = some 1000
    ∧ (executeModel envSlowReady "X").deadline = 10000
    ∧ (executeModel envSlowReady "X").deadline ≠ 1000 + 10000
    ∧ remaining (executeModel envSlowReady "X").deadline 1000 = 9000
    ∧ (9000 : ℤ) ≠ 10000 := by
  decide

/-- C2 (amended): the absolute deadline equals `t0 + timeout`, where
`t0` is the monotonic time sampled BEFORE the session is opened and the
readiness wait runs (source line 39); the execute request is sent only
after the readiness wait of duration `d`, so the remaining budget
available to the event-consumption and acknowledgement loops at send
time is `max 0 (timeout - d)` — the readiness time does reduce it. -/
theorem deadline_recorded_before_ready (env : ExecEnv) (msgId : String) (d : ℤ)
    (h : env.readyOutcome = some d) :
    (executeModel env msgId).deadline = env.t0 + env.timeoutMs
    ∧ (executeModel env msgId).sendTime = some (env.t0 + d)
    ∧ remaining (executeModel env msgId).deadline (env.t0 + d)
        = max 0 (env.timeoutMs - d) := by
  have hd : (executeModel env msgId).deadline = env.t0 + env.timeoutMs := by
    simp only [executeModel, h]
    split <;> rfl
  have hs : (executeModel env msgId).sendTime = some (env.t0 + d) := by
    simp only [executeModel, h]
    split <;> rfl
  refine ⟨hd, hs, ?_⟩
  rw [hd]
  unfold remaining
  congr 1
  ring

/-- Witness for C2 (amended) at the concrete slow-ready environment. -/
theorem deadline_recorded_before_ready_witness :
    (executeModel envSlowReady "X").deadline = 0 + 10000
    ∧ (executeModel envSlowReady "X").sendTime = some (0 + 1000)
    ∧ remaining (executeModel envSlowReady "X").deadline (0 + 1000)
        = max 0 (10000 - 1000) :=
  deadline_recorded_before_ready envSlowReady "X" 1000 rfl

/-- C4: whenever the deadline elapses while Execute is waiting for
broadcast events or for the acknowledgement (i.e. the consumption
loops end with status "timeout"), the returned result has status
"timeout", its stderr is the previously accumulated text (retained)
followed by the timeout notice, an interrupt is attempted, and a
failure of the interrupt or of channel closing never changes the
result. -/
theorem timeout_path_result (env : ExecEnv) (msgId : String) (d : ℤ)
    (hready : env.readyOutcome = some d)
    (htimeout : (execStates env msgId d).1.status = "timeout") :
    (executeModel env msgId).result = .ok
      { status := "timeout"
        execution_count := (execStates env msgId d).1.executionCount
        stdout := String.join (execStates env msgId d).1.stdoutChunks
        stderr := String.join (execStates env msgId d).1.stderrChunks
          ++ timeoutNotice env.timeoutMs }
    ∧ (executeModel env msgId).interruptAttempted = true
    ∧ ∀ a b : Bool,
        (executeModel { env with interruptRaises := a, stopRaises := b } msgId).result
          = (executeModel env msgId).result := by
  refine ⟨?_, ?_, ?_⟩
  · simp only [executeModel, hready, htimeout, if_pos, join_concat]
  · simp only [executeModel, hready, htimeout, if_pos]
  · intro a b
    rw [executeModel_ignores_cleanup_flags]

/-- Witness for C4: with no broadcast message before the 1000 ms
deadline, the result is a timeout with the notice in stderr. -/
theorem timeout_path_result_witness :
    (executeModel envNoMessages "X").result = .ok
      { status := "timeout"
        execution_count := (execStates envNoMessages "X" 0).1.executionCount
        stdout := String.join (execStates envNoMessages "X" 0).1.stdoutChunks
        stderr := String.join (execStates envNoMessages "X" 0).1.stderrChunks
          ++ timeoutNotice envNoMessages.timeoutMs }
    ∧ (executeModel envNoMessages "X").interruptAttempted = true
    ∧ ∀ a b : Bool,
        (executeModel { envNoMessages with interruptRaises := a, stopRaises := b } "X").result
          = (executeModel envNoMessages "X").result :=
  timeout_path_result envNoMessages "X" 0 rfl (by decide)

/-- C5: a consumed broadcast event or shell acknowledgement whose
correlation id differs from the issued command's id leaves the
operation's state unchanged — it contributes nothing to stdout or
stderr, does not update the execution count or terminal status, and
does not terminate either consumption loop, which continues on the
remaining queue with only the clock advanced to the arrival time. -/
theorem unmatched_message_invariance (msgId : String) (deadline : ℤ)
    (tmI : TimedMsg IopubMsg) (restI : List (TimedMsg IopubMsg)) (s1 : IoState)
    (tmS : TimedMsg ShellMsg) (restS : List (TimedMsg ShellMsg)) (s2 : IoState)
    (ss : String)
    (h1 : s1.clock < deadline) (h2 : tmI.arrival ≤ deadline)
    (hm1 : tmI.msg.parentMsgId ≠ some msgId)
    (h3 : s2.status ≠ "timeout") (h4 : s2.clock < deadline)
    (h5 : tmS.arrival ≤ deadline)
    (hm2 : tmS.msg.parentMsgId ≠ some msgId) :
    iopubLoop msgId deadline (tmI :: restI) s1
      = iopubLoop msgId deadline restI { s1 with clock := max s1.clock tmI.arrival }
    ∧ shellLoop msgId deadline (tmS :: restS) s2 ss
      = shellLoop msgId deadline restS { s2 with clock := max s2.clock tmS.arrival } ss :=
  ⟨iopubLoop_cons_unmatched msgId deadline tmI restI s1 h1 h2 hm1,
   shellLoop_cons_unmatched msgId deadline tmS restS s2 ss h3 h4 h5 hm2⟩

/-- Witness for C5: an event and an acknowledgement tagged "Y" are
discarded by an operation whose command id is "X". -/
theorem unmatched_message_invariance_witness :
    iopubLoop "X" 10000 [⟨1000, streamEvent (some "Y") "stdout" "zzz"⟩]
        { clock := 0, stdoutChunks := [], stderrChunks := [],
          executionCount := 0, status := "ok" }
      = iopubLoop "X" 10000 []
        { clock := 1000, stdoutChunks := [], stderrChunks := [],
          executionCount := 0, status := "ok" }
    ∧ shellLoop "X" 10000 [⟨1000, ackReply (some "Y") "ok" 7⟩]
        { clock := 0, stdoutChunks := [], stderrChunks := [],
          executionCount := 0, status := "ok" } "ok"
      = shellLoop "X" 10000 []
        { clock := 1000, stdoutChunks := [], stderrChunks := [],
          executionCount := 0, status := "ok" } "ok" := by
  have h := unmatched_message_invariance "X" 10000
    ⟨1000, streamEvent (some "Y") "stdout" "zzz"⟩ []
    { clock := 0, stdoutChunks := [], stderrChunks := [],
      executionCount := 0, status := "ok" }
    ⟨1000, ackReply (some "Y") "ok" 7⟩ []
    { clock := 0, stdoutChunks := [], stderrChunks := [],
      executionCount := 0, status := "ok" } "ok"
    (by decide) (by decide) (by decide) (by decide) (by decide) (by decide) (by decide)
  simpa using h

/-- C6 counterexample: with timeout 0 ms (≤ 0) and a kernel that never
becomes ready, `execute` does not return a timeout result — the
uncaught `wait_for_ready` exception propagates out of the operation
(source line 52 is not wrapped in a try/except), so the claim's "for
every timeout ≤ 0 ... rather than ... failing with a propagated error"
fails. -/
theorem nonpositive_timeout_counterexample :
    envDeadKernelZeroTimeout.timeoutMs ≤ 0
    ∧ (executeModel envDeadKernelZeroTimeout "X").result
        = .error "wait_for_ready raised" := by
  decide

/-- C6 (amended): for every timeout ≤ 0, PROVIDED the readiness wait
completes successfully, Execute returns a result with status "timeout"
whose stderr is the timeout notice, with nothing executed and nothing
accumulated; if the readiness wait fails, the error propagates. -/
theorem nonpositive_timeout_returns_timeout (env : ExecEnv) (msgId : String) (d : ℤ)
    (hto : env.timeoutMs ≤ 0) (hready : env.readyOutcome = some d) (hd : 0 ≤ d) :
    (executeModel env msgId).result = .ok
      { status := "timeout", execution_count := 0, stdout := "",
        stderr := timeoutNotice env.timeoutMs } := by
  have hrem : remaining (execDeadline env) (execInit env d).clock ≤ 0 := by
    simp only [remaining, execDeadline, execInit]
    omega
  have hio : iopubLoop msgId (execDeadline env) env.iopub (execInit env d)
      = { execInit env d with status := "timeout" } :=
    iopubLoop_elapsed msgId (execDeadline env) env.iopub (execInit env d) hrem
  have hst : execStates env msgId d
      = ({ execInit env d with status := "timeout" }, "ok") := by
    rw [execStates, hio, shellLoop_of_timeout]
    rfl
  simp only [executeModel, hready, hst, execInit]
  simp [String.join, timeoutNotice]

/-- Witness for C6 (amended): timeout 0 ms, ready kernel, empty
channels. -/
theorem nonpositive_timeout_returns_timeout_witness :
    (executeModel
        { timeoutMs := 0, t0 := 0, readyOutcome := some 0,
          iopub := [], shell := [],
          interruptRaises := false, stopRaises := false } "X").result = .ok
      { status := "timeout", execution_count := 0, stdout := "",
        stderr := timeoutNotice 0 } :=
  nonpositive_timeout_returns_timeout
    { timeoutMs := 0, t0 := 0, readyOutcome := some 0,
      iopub := [], shell := [],
      interruptRaises := false, stopRaises := false } "X" 0
    (by decide) rfl (by decide)

/-- C7: the accumulators are append-only and order-preserving.  When
the readiness wait succeeds, Execute returns a record whose stdout is
exactly the concatenation, in receipt order, of the payload texts of
the consumed matching stream events routed to standard-output, and
whose stderr is the concatenation, in receipt order, of the texts
routed to standard-error by the event loop (stderr-named stream texts
and error tracebacks), followed only by later appends (a terminal error
traceback from the acknowledgement and/or the timeout notice) — no
consumed event removes or reorders previously accumulated text. -/
theorem accumulation_append_only_order (env : ExecEnv) (msgId : String) (d : ℤ)
    (hready : env.readyOutcome = some d) :
    ∃ r, (executeModel env msgId).result = .ok r
      ∧ r.stdout = String.join (contribJoin (outContrib msgId)
          (consumedIopub msgId (execDeadline env) env.iopub (env.t0 + d)))
      ∧ ∃ tail, r.stderr = String.join (contribJoin (errContrib msgId)
          (consumedIopub msgId (execDeadline env) env.iopub (env.t0 + d))) ++ tail := by
  have hio := iopubLoop_chunks msgId (execDeadline env) env.iopub (execInit env d)
  have hsh := shellLoop_effects msgId (execDeadline env) env.shell
    (iopubLoop msgId (execDeadline env) env.iopub (execInit env d)) "ok"
  obtain ⟨extra, hextra⟩ := hsh.2
  have hclk : (execInit env d).clock = env.t0 + d := rfl
  have hout : (execStates env msgId d).1.stdoutChunks
      = contribJoin (outContrib msgId)
          (consumedIopub msgId (execDeadline env) env.iopub (env.t0 + d)) := by
    rw [execStates, hsh.1, hio.1]
    simp [execInit]
  have herr : (execStates env msgId d).1.stderrChunks
      = contribJoin (errContrib msgId)
          (consumedIopub msgId (execDeadline env) env.iopub (env.t0 + d)) ++ extra := by
    rw [execStates, hextra, hio.2]
    simp [execInit]
  by_cases hto : (execStates env msgId d).1.status = "timeout"
  · have hres : (executeModel env msgId).result = .ok
        { status := "timeout"
          execution_count := (execStates env msgId d).1.executionCount
          stdout := String.join (execStates env msgId d).1.stdoutChunks
          stderr := String.join ((execStates env msgId d).1.stderrChunks
            ++ [timeoutNotice env.timeoutMs]) } := by
      simp only [executeModel, hready, hto, if_pos]
    refine ⟨_, hres, ?_, ?_⟩
    · show String.join (execStates env msgId d).1.stdoutChunks = _
      rw [hout]
    · refine ⟨String.join extra ++ timeoutNotice env.timeoutMs, ?_⟩
      show String.join ((execStates env msgId d).1.stderrChunks
        ++ [timeoutNotice env.timeoutMs]) = _
      rw [join_concat, herr, join_append, String.append_assoc]
  · have hres : (executeModel env msgId).result = .ok
        { status := (execStates env msgId d).2
          execution_count := (execStates env msgId d).1.executionCount
          stdout := String.join (execStates env msgId d).1.stdoutChunks
          stderr := String.join (execStates env msgId d).1.stderrChunks } := by
      simp only [executeModel, hready, hto, if_neg, ite_false]
    refine ⟨_, hres, ?_, ?_⟩
    · show String.join (execStates env msgId d).1.stdoutChunks = _
      rw [hout]
    · refine ⟨String.join extra, ?_⟩
      show String.join (execStates env msgId d).1.stderrChunks = _
      rw [herr, join_append]

/-- Witness for C7 at the concrete ok-scenario environment. -/
theorem accumulation_append_only_order_witness :
    ∃ r, (executeModel envScenarioOk "X").result = .ok r
      ∧ r.stdout = String.join (contribJoin (outContrib "X")
          (consumedIopub "X" (execDeadline envScenarioOk) envScenarioOk.iopub
            (envScenarioOk.t0 + 0)))
      ∧ ∃ tail, r.stderr = String.join (contribJoin (errContrib "X")
          (consumedIopub "X" (execDeadline envScenarioOk) envScenarioOk.iopub
            (envScenarioOk.t0 + 0))) ++ tail :=
  accumulation_append_only_order envScenarioOk "X" 0 rfl

/-- C8: every exit path of Probe, Execute and Shutdown — success,
error and timeout alike — closes the session's channels
(`stop_channels` runs in the `finally` block), and a failure while
closing, like a failure of the advisory interrupt, is swallowed and
never changes or suppresses the operation's primary result. -/
theorem cleanup_on_every_exit_path (env : ExecEnv) (msgId : String) (tms : Int)
    (ready sendOk a b : Bool) :
    (executeModel env msgId).stopAttempted = true
    ∧ (executeModel { env with interruptRaises := a, stopRaises := b } msgId).result
        = (executeModel env msgId).result
    ∧ (probeModel tms ready a).stopAttempted = true
    ∧ (probeModel tms ready a).result = (probeModel tms ready b).result
    ∧ (shutdownModel tms ready sendOk a).stopAttempted = true
    ∧ (shutdownModel tms ready sendOk a).result = (shutdownModel tms ready sendOk b).result := by
  refine ⟨?_, ?_, rfl, rfl, rfl, rfl⟩
  · simp only [executeModel]
    cases env.readyOutcome <;> simp [apply_ite ExecOutcome.stopAttempted]
  · rw [executeModel_ignores_cleanup_flags]

/-- C9: Shutdown waits for readiness bounded by min(3s, timeout) —
min(3000, timeout_ms) in milliseconds — tolerates both a readiness wait
that never succeeds and a shutdown-command send that fails, and in all
of these cases still returns `{ok: true}` without waiting for a
shutdown acknowledgement. -/
theorem shutdown_always_ok (tms : Int) (ready sendOk stopR : Bool) :
    (shutdownModel tms ready sendOk stopR).result = .ok true
    ∧ (shutdownModel tms ready sendOk stopR).readyBound = min 3000 (tms : ℤ)
    ∧ (shutdownModel tms ready sendOk stopR).ackWaited = false :=
  ⟨rfl, rfl, rfl⟩

/-- C10: a broadcast status(idle) event terminates the event loop only
when its parent correlation id equals the command's id: an idle event
without that id (correlation-id-less or tagged with another command's
id) is discarded and the loop continues on the remaining queue, while a
matching idle event exits the loop with the state unchanged apart from
the clock. -/
theorem idle_break_requires_matching_id (msgId : String) (deadline : ℤ)
    (tm1 tm2 : TimedMsg IopubMsg) (rest : List (TimedMsg IopubMsg)) (s : IoState)
    (h1 : s.clock < deadline) (h2 : tm1.arrival ≤ deadline) (h2' : tm2.arrival ≤ deadline)
    (ht1 : tm1.msg.msgType = "status") (hs1 : tm1.msg.executionState = some "idle")
    (hm1 : tm1.msg.parentMsgId ≠ some msgId)
    (ht2 : tm2.msg.msgType = "status") (hs2 : tm2.msg.executionState = some "idle")
    (hm2 : tm2.msg.parentMsgId = some msgId) :
    iopubLoop msgId deadline (tm1 :: rest) s
      = iopubLoop msgId deadline rest { s with clock := max s.clock tm1.arrival }
    ∧ iopubLoop msgId deadline (tm2 :: rest) s
      = { s with clock := max s.clock tm2.arrival } :=
  ⟨iopubLoop_cons_unmatched msgId deadline tm1 rest s h1 h2 hm1,
   iopubLoop_cons_idle msgId deadline tm2 rest s h1 h2' hm2 ht2 hs2⟩

/-- Witness for C10: a correlation-id-less idle event is discarded (the
loop then times out with no further messages), while an idle event
tagged with the command's id ends the loop. -/
theorem idle_break_requires_matching_id_witness :
    iopubLoop "X" 10000 [⟨1000, idleEvent none⟩]
        { clock := 0, stdoutChunks := [], stderrChunks := [],
          executionCount := 0, status := "ok" }
      = iopubLoop "X" 10000 []
        { clock := 1000, stdoutChunks := [], stderrChunks := [],
          executionCount := 0, status := "ok" }
    ∧ iopubLoop "X" 10000 [⟨1000, idleEvent (some "X")⟩]
        { clock := 0, stdoutChunks := [], stderrChunks := [],
          executionCount := 0, status := "ok" }
      = { clock := 1000, stdoutChunks := [], stderrChunks := [],
          executionCount := 0, status := "ok" } := by
  have h := idle_break_requires_matching_id "X" 10000
    ⟨1000, idleEvent none⟩ ⟨1000, idleEvent (some "X")⟩ []
    { clock := 0, stdoutChunks := [], stderrChunks := [],
      executionCount := 0, status := "ok" }
    (by decide) (by decide) (by decide) (by decide) (by decide) (by decide)
    (by decide) (by decide) (by decide)
  simpa using h

end IpykernelHelper
